import Mathlib

/-!
Shallow embedding of the macOS discovery engine of `mac_apt.py`
(signature detectors, partition scan, APFS volume orchestrator,
installation validator, and the whole-image discovery flow),
together with theorems settling the spec claims about it.
-/

namespace MacApt

/-- A random-access evidence stream: `read offset length` returns the bytes
read (as a list of byte values), or `none` when the underlying read raises
(short read, seek failure, ...).  This models the `img` object whose `read`
method the Python detectors call. -/
structure Stream where
  read : Int → Nat → Option (List Nat)

/-- The APFS container superblock magic `b'NXSB'` as byte values. -/
def nxsbMagic : List Nat := [0x4E, 0x58, 0x53, 0x42]

/-- Embedding of `IsApfsContainer(img, partition_start_offset)` (mac_apt.py
lines 259-266): reads 4 bytes at `offset + 0x20`; a successful read is
compared with `b'NXSB'`; a failing read makes the function raise
`ValueError`, modelled as `Except.error`. -/
def IsApfsContainer (img : Stream) (partition_start_offset : Int) : Except String Bool :=
  match img.read (partition_start_offset + 0x20) 4 with
  | some bs => if bs = nxsbMagic then .ok true else .ok false
  | none => .error ("Cannot seek into image @ offset " ++ toString (partition_start_offset + 0x20))

/-- Embedding of `IsHFSVolume(img, partition_start_offset)` (mac_apt.py
lines 268-275): reads 2 bytes at `offset + 0x400` and compares with
`b'\x48\x58'` or `b'\x48\x2B'`; a failing read raises `ValueError`. -/
def IsHFSVolume (img : Stream) (partition_start_offset : Int) : Except String Bool :=
  match img.read (partition_start_offset + 0x400) 2 with
  | some bs => if bs = [0x48, 0x58] ∨ bs = [0x48, 0x2B] then .ok true else .ok false
  | none => .error ("Cannot seek into image @ offset " ++ toString (partition_start_offset + 0x400))

/-- The bootable-APFS GPT partition type identifier the code compares with:
`UUID("\x7bef57347c-0000-aa11-aa11-00306543ecac\x7d")` built from the 16 raw
bytes read at the GPT entry (UUID `bytes=` order). -/
def apfsBootUuidBytes : List Nat :=
  [0xef, 0x57, 0x34, 0x7c, 0x00, 0x00, 0xaa, 0x11,
   0xaa, 0x11, 0x00, 0x30, 0x65, 0x43, 0xec, 0xac]

/-- Embedding of `IsApfsBootContainer(img, gpt_part_offset)` (mac_apt.py
lines 245-257): reads 16 bytes at the supplied GPT entry offset and compares
the UUID; a failing read raises `ValueError`. -/
def IsApfsBootContainer (img : Stream) (gpt_part_offset : Int) : Except String Bool :=
  match img.read gpt_part_offset 16 with
  | some bs => if bs = apfsBootUuidBytes then .ok true else .ok false
  | none => .error ("Cannot seek into image @ offset " ++ toString gpt_part_offset)

/-- A stream whose every read fails. -/
def failingStream : Stream := ⟨fun _ _ => none⟩

/-! ## Partition-table scan (`FindMacOsPartition`, mac_apt.py lines 370-397) -/

/-- `pytsk3.TSK_VS_PART_FLAG_ALLOC`. -/
def TSK_VS_PART_FLAG_ALLOC : Nat := 1

/-- `pytsk3.TSK_VS_PART_FLAG_META`. -/
def TSK_VS_PART_FLAG_META : Nat := 4

/-- A partition-table entry as the scan sees it (`part` in the loop over
`vol_info`): flags, description, starting block, length in blocks, slot. -/
structure PartEntry where
  flags : Nat
  desc : String
  start : Nat
  len : Nat
  slot_num : Nat
deriving DecidableEq, Repr

/-- Outcome of the partition scan: a returned boolean, or a propagated
exception (`ValueError` from a detector). -/
inductive ScanOutcome
  | ok (found : Bool)
  | err (msg : String)
deriving DecidableEq, Repr

/-- Result of the partition scan, instrumented with the list of entries that
were actually handed to the signature detectors (line 388 onwards). -/
structure ScanResult where
  outcome : ScanOutcome
  evaluated : List PartEntry
deriving DecidableEq, Repr

/-- Python `str.upper()` as the scan applies it to partition descriptions
(the relevant descriptions are ASCII): uppercase every character. -/
def pyUpper (s : String) : String := ⟨s.data.map Char.toUpper⟩

/-- One step of the `for part in vol_info` loop of `FindMacOsPartition`.
`isMacOs off` is the (exception-free) result of `IsMacOsPartition` at that
offset and `orch off` the result of `FindMacOsPartitionInApfsContainer` for a
container starting there; `gptPartsOff` carries `gpt_partitions_offset`
(initially `-1`), `acc` the entries evaluated so far. -/
def scanGo (img : Stream) (blockSize : Nat) (isMacOs orch : Int → Bool) :
    List PartEntry → Int → List PartEntry → ScanResult
  | [], _, acc => ⟨.ok false, acc⟩
  | p :: rest, gptPartsOff, acc =>
    if p.flags &&& TSK_VS_PART_FLAG_META ≠ 0 ∧ p.desc = "GPT Header" then
      scanGo img blockSize isMacOs orch rest ((blockSize * p.start : Nat) + blockSize) acc
    else if p.flags &&& TSK_VS_PART_FLAG_ALLOC ≠ 0 then
      let off : Int := (blockSize * p.start : Nat)
      if pyUpper p.desc = "EFI SYSTEM PARTITION" then
        scanGo img blockSize isMacOs orch rest gptPartsOff acc
      else if pyUpper p.desc = "APPLE_PARTITION_MAP" then
        scanGo img blockSize isMacOs orch rest gptPartsOff acc
      else
        match IsApfsContainer img off with
        | .error m => ⟨.err m, acc ++ [p]⟩
        | .ok true =>
          match IsApfsBootContainer img (gptPartsOff + 128 * (p.slot_num : Int)) with
          | .error m => ⟨.err m, acc ++ [p]⟩
          | .ok true => ⟨.ok (orch off), acc ++ [p]⟩
          | .ok false => scanGo img blockSize isMacOs orch rest gptPartsOff (acc ++ [p])
        | .ok false =>
          if isMacOs off then ⟨.ok true, acc ++ [p]⟩
          else scanGo img blockSize isMacOs orch rest gptPartsOff (acc ++ [p])
    else
      scanGo img blockSize isMacOs orch rest gptPartsOff acc

/-- Embedding of `FindMacOsPartition(img, vol_info, vs_info)` (mac_apt.py
lines 370-397): walks the partition entries in table order with
`gpt_partitions_offset` starting at `-1` and no entry evaluated yet. -/
def FindMacOsPartition (img : Stream) (entries : List PartEntry) (blockSize : Nat)
    (isMacOs orch : Int → Bool) : ScanResult :=
  scanGo img blockSize isMacOs orch entries (-1) []

/-! ## Installation validator (`FindMacOsFiles`, mac_apt.py lines 208-220) -/

/-- The canonical macOS version-descriptor path the validator checks. -/
def systemVersionPlistPath : String := "/System/Library/CoreServices/SystemVersion.plist"

/-- Embedding of `FindMacOsFiles(mac_info)` (mac_apt.py lines 208-220), with
the filesystem handle abstracted to its `IsValidFilePath` predicate.  Returns
the boolean result paired with the log lines emitted. -/
def FindMacOsFiles (isValidFilePath : String → Bool) : Bool × List String :=
  if isValidFilePath systemVersionPlistPath then
    (true,
      if isValidFilePath "/System/Library/Kernels/kernel" ∨ isValidFilePath "/mach_kernel" then
        ["Found valid OSX/macOS kernel"]
      else
        ["Could not find OSX/macOS kernel!"])
  else
    (false, ["Could not find OSX/macOS installation!"])

/-! ## APFS volume orchestrator
(`FindMacOsPartitionInApfsContainer`, mac_apt.py lines 283-368) -/

/-- APFS volume role constants (`VolumeRoleType` of the APFS decoder):
`system`. -/
def roleSystem : Nat := 0x1

/-- APFS volume role constant `data`. -/
def roleData : Nat := 0x40

/-- APFS volume role constant `preboot`. -/
def rolePreboot : Nat := 0x10

/-- APFS volume role constant `update`. -/
def roleUpdate : Nat := 0xC0

/-- An APFS volume as the orchestrator sees it: name, role value and
identifier (uuid). -/
structure Volume where
  volume_name : String
  role : Nat
  uuid : String
deriving DecidableEq, Repr

/-- The role-classified volume handles of `mac_info`
(`apfs_sys_volume`, `apfs_data_volume`, `apfs_preboot_volume`,
`apfs_update_volume`), each `none` until the classification loop
assigns it. -/
structure ClassifiedVols where
  sys : Option Volume
  data : Option Volume
  preboot : Option Volume
  update : Option Volume
deriving DecidableEq, Repr

/-- Embedding of the classification loop (mac_apt.py lines 292-304): each
volume is matched against the role constants and assigned to the
corresponding `mac_info` attribute; a later volume with the same role
overwrites an earlier one. -/
def classifyVolumes (vols : List Volume) : ClassifiedVols :=
  vols.foldl (fun acc v =>
    if v.role = roleSystem then { acc with sys := some v }
    else if v.role = roleData then { acc with data := some v }
    else if v.role = rolePreboot then { acc with preboot := some v }
    else if v.role = roleUpdate then { acc with update := some v }
    else acc) ⟨none, none, none, none⟩

/-- A persisted per-container cache record (the `APFS_Volumes_<UUID>.db`
content relevant to validity): schema version plus one (identifier, role)
pair per recorded volume. -/
structure CacheRecord where
  schemaVersion : Nat
  volRecords : List (String × Nat)
deriving DecidableEq, Repr

/-- The schema version the current code writes and expects. -/
def currentDbVersion : Nat := 1

/-- Modelled from the spec: `ApfsDbInfo.CheckVerInfo`
(plugins/helpers/apfs_reader.py, not under src/) — "Validity requires:
schema version matches". -/
def CheckVerInfo (c : CacheRecord) : Bool :=
  c.schemaVersion = currentDbVersion

/-- Modelled from the spec: `ApfsDbInfo.CheckVolInfoAndGetVolEncKey`
(plugins/helpers/apfs_reader.py, not under src/) — "every live volume's
role/identifier is present and matches the cached record". -/
def CheckVolInfoAndGetVolEncKey (c : CacheRecord) (vols : List Volume) : Bool :=
  vols.all (fun v => c.volRecords.contains (v.uuid, v.role))

/-- Modelled from the spec: `ApfsDbInfo.WriteVolInfo`
(plugins/helpers/apfs_reader.py, not under src/) — records each live
volume's identifier and role. -/
def WriteVolInfo (vols : List Volume) : List (String × Nat) :=
  vols.map (fun v => (v.uuid, v.role))

/-- Environment of one `FindMacOsPartitionInApfsContainer` run: the live
container volumes, the pre-existing cache db (if the file exists), and the
outcomes of the external calls — `ReadApfsVolumes` (false means it raises,
e.g. a decryption failure), `CreateCombinedVolume`, and `FindMacOsFiles` on
the combined view resp. on a single legacy volume. -/
structure OrchEnv where
  volumes : List Volume
  existingDb : Option CacheRecord
  readVolumesOk : Bool
  createCombinedOk : Bool
  findFilesCombined : Bool
  findFilesVol : Volume → Bool

/-- Observable result of one orchestrator run: the returned boolean plus a
trace — whether the existing db was accepted, whether the stale db file was
deleted, the volume records written on the rebuild path, whether
`WriteVersionInfo` ran, whether an exception escaped to the outer handler
(line 365), whether the inner handler logged
'Error while reading APFS volumes' (line 345), and whether the validator was
invoked on the combined view (line 353). -/
structure OrchResult where
  found : Bool
  usedExisting : Bool
  deletedOldDb : Bool
  wroteVolInfo : Option (List (String × Nat))
  wroteVersionInfo : Bool
  raisedOuter : Bool
  loggedReadError : Bool
  loggedNoDataError : Bool
  combinedValidatorUsed : Bool
deriving DecidableEq, Repr

/-- The result record before any trace event has happened. -/
def emptyResult : OrchResult :=
  ⟨false, false, false, none, false, false, false, false, false⟩

/-- Embedding of mac_apt.py lines 347-364 (after the db is set up): with a
SYSTEM volume, a missing DATA volume is a logged failure (lines 350-352),
otherwise the validator runs on the combined view (line 353); with no SYSTEM
volume each volume is tried in turn and the first validated one wins
(lines 356-362). -/
def afterDbSetup (env : OrchEnv) (c : ClassifiedVols) (base : OrchResult) : OrchResult :=
  match c.sys with
  | some _ =>
    match c.data with
    | none => { base with found := false, loggedNoDataError := true }
    | some _ => { base with found := env.findFilesCombined, combinedValidatorUsed := true }
  | none => { base with found := env.volumes.any env.findFilesVol }

/-- Embedding of the not-`use_existing_db` branch (mac_apt.py lines
329-346): create a fresh db, read the volumes (an exception lands in the
inner handler), write the volume records, and on the split layout
dereference the DATA handle (`None` raises into the inner handler) and
build the combined volume (returning `False` on failure) before writing the
version record. -/
def rebuildDb (env : OrchEnv) (c : ClassifiedVols) (deletedOld : Bool) : OrchResult :=
  if !env.readVolumesOk then
    { emptyResult with deletedOldDb := deletedOld, loggedReadError := true }
  else
    let volInfo := WriteVolInfo env.volumes
    match c.sys with
    | some _ =>
      match c.data with
      | none =>
        { emptyResult with deletedOldDb := deletedOld, wroteVolInfo := some volInfo,
                           loggedReadError := true }
      | some _ =>
        if env.createCombinedOk then
          afterDbSetup env c
            { emptyResult with deletedOldDb := deletedOld, wroteVolInfo := some volInfo,
                               wroteVersionInfo := true }
        else
          { emptyResult with deletedOldDb := deletedOld, wroteVolInfo := some volInfo,
                             found := false }
    | none =>
      afterDbSetup env c
        { emptyResult with deletedOldDb := deletedOld, wroteVolInfo := some volInfo,
                           wroteVersionInfo := true }

/-- Embedding of `FindMacOsPartitionInApfsContainer` (mac_apt.py lines
283-368): classify the volumes, then — when a cache db file exists — accept
it iff `CheckVerInfo` and `CheckVolInfoAndGetVolEncKey` both pass (line 313).
On acceptance with a SYSTEM volume, the DATA, PREBOOT and UPDATE handles are
dereferenced unconditionally (lines 318-321); a `None` handle raises into
the outer handler (line 365).  On rejection the stale file is removed
(line 328) and the db is rebuilt; with no existing file it is built fresh. -/
def FindMacOsPartitionInApfsContainer (env : OrchEnv) : OrchResult :=
  let c := classifyVolumes env.volumes
  match env.existingDb with
  | some cache =>
    if CheckVerInfo cache && CheckVolInfoAndGetVolEncKey cache env.volumes then
      match c.sys with
      | some _ =>
        if c.data.isSome && c.preboot.isSome && c.update.isSome then
          afterDbSetup env c { emptyResult with usedExisting := true }
        else
          { emptyResult with usedExisting := true, raisedOuter := true }
      | none => afterDbSetup env c { emptyResult with usedExisting := true }
    else
      rebuildDb env c true
  | none => rebuildDb env c false

/-! ## Whole-image discovery flow (mac_apt.py lines 634-649) -/

/-- Embedding of the whole-image discovery block (mac_apt.py lines 634-649):
`orchAt0` is the result of `FindMacOsPartitionInApfsContainer` for a
container at offset 0, `hfsMacAt0` the result of `IsMacOsPartition` at
offset 0, and `scan` the outcome of the partition-table walk (whose
exceptions are swallowed by the handler at line 648).  Returns
`(found_macos, entered_partition_scan)`; a detector `ValueError` at offset 0
is uncaught and propagates. -/
def mainDiscovery (img : Stream) (orchAt0 hfsMacAt0 : Bool) (scan : ScanOutcome) :
    Except String (Bool × Bool) := do
  let a ← IsApfsContainer img 0
  let found ←
    if a then pure orchAt0
    else do
      let h ← IsHFSVolume img 0
      pure (if h then hfsMacAt0 else false)
  if found then
    return (found, false)
  else
    match scan with
    | .ok b => return (b, true)
    | .err _ => return (false, true)

end MacApt

namespace MacApt

/-! ## Theorems for the claims -/

/-- C1 (counterexample): the claim says a failing read makes
`IsApfsContainer` return false; on a stream whose read at offset `0 + 0x20`
fails, the function instead propagates a `ValueError` and does not return
false. -/
theorem C1_read_failure_raises_counterexample :
    IsApfsContainer failingStream 0 ≠ .ok false ∧
    IsApfsContainer failingStream 0 =
      .error ("Cannot seek into image @ offset " ++ toString ((0 : Int) + 0x20)) := by
  constructor
  · intro h
    simp [IsApfsContainer, failingStream] at h
  · rfl

/-- C1 (amended): `IsApfsContainer` returns true iff the 4 bytes read at
`offset + 0x20` equal `NXSB`; a successful read of any other bytes returns
false, but a failing read raises a `ValueError` (modelled as an error
result) instead of returning false. -/
theorem C1_isApfsContainer_spec (img : Stream) (off : Int) :
    (IsApfsContainer img off = .ok true ↔ img.read (off + 0x20) 4 = some nxsbMagic) ∧
    (∀ bs, img.read (off + 0x20) 4 = some bs → bs ≠ nxsbMagic →
      IsApfsContainer img off = .ok false) ∧
    (img.read (off + 0x20) 4 = none →
      IsApfsContainer img off =
        .error ("Cannot seek into image @ offset " ++ toString (off + 0x20))) := by
  refine ⟨⟨fun h => ?_, fun h => ?_⟩, fun bs hbs hne => ?_, fun h => ?_⟩
  · unfold IsApfsContainer at h
    cases hr : img.read (off + 0x20) 4 with
    | none => rw [hr] at h; simp at h
    | some bs =>
      rw [hr] at h
      by_cases hb : bs = nxsbMagic
      · rw [hb]
      · simp [hb] at h
  · unfold IsApfsContainer
    rw [h]
    simp
  · unfold IsApfsContainer
    rw [hbs]
    simp [hne]
  · unfold IsApfsContainer
    rw [h]

/-- C1 (witness): the amended statement applied to a concrete failing
stream at offset 5. -/
theorem C1_isApfsContainer_spec_witness :
    IsApfsContainer failingStream 5 =
      .error ("Cannot seek into image @ offset " ++ toString ((5 : Int) + 0x20)) :=
  (C1_isApfsContainer_spec failingStream 5).2.2 rfl

/-- C8: on any successful 2-byte read at `offset + 0x400`, `IsHFSVolume`
returns true iff the bytes are `0x48 0x58` or `0x48 0x2B`, and false for any
other byte values. -/
theorem C8_isHfsVolume_spec (img : Stream) (off : Int) (bs : List Nat)
    (h : img.read (off + 0x400) 2 = some bs) :
    (IsHFSVolume img off = .ok true ↔ (bs = [0x48, 0x58] ∨ bs = [0x48, 0x2B])) ∧
    (¬(bs = [0x48, 0x58] ∨ bs = [0x48, 0x2B]) → IsHFSVolume img off = .ok false) := by
  unfold IsHFSVolume
  rw [h]
  constructor
  · constructor
    · intro hok
      by_cases hb : bs = [0x48, 0x58] ∨ bs = [0x48, 0x2B]
      · exact hb
      · simp [hb] at hok
    · intro hb
      rcases hb with rfl | rfl <;> simp
  · intro hb
    simp [hb]

/-- C8 (witness): the statement applied to a concrete stream holding
`0x48 0x2B` at offset `0x400`. -/
theorem C8_isHfsVolume_spec_witness :
    IsHFSVolume ⟨fun off len => if off = 0x400 ∧ len = 2 then some [0x48, 0x2B] else none⟩ 0 =
      .ok true :=
  (C8_isHfsVolume_spec ⟨fun off len => if off = 0x400 ∧ len = 2 then some [0x48, 0x2B] else none⟩
    0 [0x48, 0x2B] rfl).1.mpr (Or.inr rfl)

/-- C9: the installation validator confirms exactly when the canonical
version-descriptor file is present, and a missing kernel (both canonical
kernel paths absent) is only logged — it never makes the validator reject a
filesystem whose version-descriptor file is present. -/
theorem C9_findMacOsFiles_spec (p : String → Bool) :
    ((FindMacOsFiles p).1 = p systemVersionPlistPath) ∧
    (p systemVersionPlistPath = true →
      p "/System/Library/Kernels/kernel" = false → p "/mach_kernel" = false →
      (FindMacOsFiles p).1 = true ∧
        "Could not find OSX/macOS kernel!" ∈ (FindMacOsFiles p).2) := by
  constructor
  · unfold FindMacOsFiles
    cases h : p systemVersionPlistPath <;> simp [h]
  · intro h1 h2 h3
    unfold FindMacOsFiles
    rw [h1]
    simp [h2, h3]

/-- A concrete container-only image: `NXSB` at offset 0x20, all other reads
succeed with zero bytes. -/
def nxImage : Stream :=
  ⟨fun off len => if off = 0x20 ∧ len = 4 then some nxsbMagic else some (List.replicate len 0)⟩

/-- C2 (counterexample): on an image with an APFS signature at absolute
offset 0, when the delegated orchestrator fails, the discovery flow still
enters the partition scan (second component `true`), and the scan outcome
even decides `found_macos` — refuting that the partition scan is never
entered after whole-image APFS detection. -/
theorem C2_partition_scan_entered_counterexample :
    mainDiscovery nxImage false false (.ok true) = .ok (true, true) := by rfl

/-- C2 (amended): with an APFS signature at offset 0, discovery delegates to
the orchestrator; if the orchestrator succeeds the partition scan is never
entered, but if it fails the flow falls through to the partition scan. -/
theorem C2_whole_image_flow (img : Stream) (orchAt0 hfsMacAt0 : Bool) (scan : ScanOutcome)
    (ha : IsApfsContainer img 0 = .ok true) :
    (orchAt0 = true → mainDiscovery img orchAt0 hfsMacAt0 scan = .ok (true, false)) ∧
    (orchAt0 = false → ∃ b, mainDiscovery img orchAt0 hfsMacAt0 scan = .ok (b, true)) := by
  constructor
  · intro ho
    subst ho
    unfold mainDiscovery
    rw [ha]
    rfl
  · intro ho
    subst ho
    unfold mainDiscovery
    rw [ha]
    cases scan with
    | ok b => exact ⟨b, rfl⟩
    | err m => exact ⟨false, rfl⟩

/-- C2 (witness): the amended statement applied to the concrete
container-only image with a succeeding orchestrator. -/
theorem C2_whole_image_flow_witness :
    mainDiscovery nxImage true false (.ok false) = .ok (true, false) :=
  (C2_whole_image_flow nxImage true false (.ok false) rfl).1 rfl

/-- C9 (witness): the statement applied to a filesystem predicate that
validates only the version-descriptor path. -/
theorem C9_findMacOsFiles_spec_witness :
    (FindMacOsFiles (fun s => decide (s = systemVersionPlistPath))).1 = true ∧
    "Could not find OSX/macOS kernel!" ∈
      (FindMacOsFiles (fun s => decide (s = systemVersionPlistPath))).2 :=
  (C9_findMacOsFiles_spec (fun s => decide (s = systemVersionPlistPath))).2
    (by decide) (by decide) (by decide)

/-- `afterDbSetup` only touches `found`, `loggedNoDataError` and
`combinedValidatorUsed`: the remaining trace fields come from `base`. -/
theorem afterDbSetup_usedExisting (env : OrchEnv) (c : ClassifiedVols) (base : OrchResult) :
    (afterDbSetup env c base).usedExisting = base.usedExisting := by
  unfold afterDbSetup
  cases c.sys with
  | none => rfl
  | some v =>
    cases c.data with
    | none => rfl
    | some d => rfl

/-- `afterDbSetup` leaves `deletedOldDb` to `base`. -/
theorem afterDbSetup_deletedOldDb (env : OrchEnv) (c : ClassifiedVols) (base : OrchResult) :
    (afterDbSetup env c base).deletedOldDb = base.deletedOldDb := by
  unfold afterDbSetup
  cases c.sys with
  | none => rfl
  | some v =>
    cases c.data with
    | none => rfl
    | some d => rfl

/-- `afterDbSetup` leaves `wroteVolInfo` to `base`. -/
theorem afterDbSetup_wroteVolInfo (env : OrchEnv) (c : ClassifiedVols) (base : OrchResult) :
    (afterDbSetup env c base).wroteVolInfo = base.wroteVolInfo := by
  unfold afterDbSetup
  cases c.sys with
  | none => rfl
  | some v =>
    cases c.data with
    | none => rfl
    | some d => rfl

/-- When the classified volumes have a SYSTEM volume and no DATA volume,
`afterDbSetup` reports failure without using the combined-view validator. -/
theorem afterDbSetup_sys_no_data (env : OrchEnv) (c : ClassifiedVols) (base : OrchResult)
    (hs : c.sys.isSome = true) (hd : c.data = none) :
    (afterDbSetup env c base).found = false ∧
    (afterDbSetup env c base).combinedValidatorUsed = base.combinedValidatorUsed := by
  obtain ⟨v, hv⟩ := Option.isSome_iff_exists.mp hs
  unfold afterDbSetup
  rw [hv, hd]
  exact ⟨rfl, rfl⟩

/-- `rebuildDb` never accepts the old db, records the deletion flag it was
given, and — when `ReadApfsVolumes` succeeds — writes the volume records of
the live container. -/
theorem rebuildDb_trace (env : OrchEnv) (c : ClassifiedVols) (d : Bool) :
    (rebuildDb env c d).usedExisting = false ∧
    (rebuildDb env c d).deletedOldDb = d ∧
    (env.readVolumesOk = true →
      (rebuildDb env c d).wroteVolInfo = some (WriteVolInfo env.volumes)) := by
  unfold rebuildDb
  cases hr : env.readVolumesOk with
  | false => exact ⟨rfl, rfl, fun h => Bool.noConfusion h⟩
  | true =>
    simp only [Bool.not_true, Bool.false_eq_true, if_neg, ite_false]
    cases hcs : c.sys with
    | none =>
      refine ⟨?_, ?_, fun _ => ?_⟩
      · rw [afterDbSetup_usedExisting]
        rfl
      · rw [afterDbSetup_deletedOldDb]
      · rw [afterDbSetup_wroteVolInfo]
    | some v =>
      cases hcd : c.data with
      | none => exact ⟨rfl, rfl, fun _ => rfl⟩
      | some w =>
        cases hcc : env.createCombinedOk with
        | false => exact ⟨rfl, rfl, fun _ => rfl⟩
        | true =>
          simp only [ite_true]
          refine ⟨?_, ?_, fun _ => ?_⟩
          · rw [afterDbSetup_usedExisting]
            rfl
          · rw [afterDbSetup_deletedOldDb]
          · rw [afterDbSetup_wroteVolInfo]

/-- Whatever path `rebuildDb` takes with a SYSTEM volume and no DATA
volume, the result is failure and the combined-view validator is never
invoked. -/
theorem rebuildDb_sys_no_data (env : OrchEnv) (c : ClassifiedVols) (d : Bool)
    (hs : c.sys.isSome = true) (hd : c.data = none) :
    (rebuildDb env c d).found = false ∧
    (rebuildDb env c d).combinedValidatorUsed = false := by
  obtain ⟨v, hv⟩ := Option.isSome_iff_exists.mp hs
  unfold rebuildDb
  cases hr : env.readVolumesOk with
  | false => exact ⟨rfl, rfl⟩
  | true =>
    simp only [Bool.not_true, Bool.false_eq_true, if_neg, ite_false]
    rw [hv, hd]
    exact ⟨rfl, rfl⟩

/-- C3: for every container whose classified volumes include a SYSTEM
volume but no DATA volume, the orchestrator returns failure and never
invokes the validator on a combined (or SYSTEM-only) view. -/
theorem C3_system_without_data_fails (env : OrchEnv)
    (hs : ((classifyVolumes env.volumes).sys).isSome = true)
    (hd : (classifyVolumes env.volumes).data = none) :
    (FindMacOsPartitionInApfsContainer env).found = false ∧
    (FindMacOsPartitionInApfsContainer env).combinedValidatorUsed = false := by
  obtain ⟨v, hv⟩ := Option.isSome_iff_exists.mp hs
  unfold FindMacOsPartitionInApfsContainer
  cases hdb : env.existingDb with
  | none => exact rebuildDb_sys_no_data env _ false hs hd
  | some cache =>
    cases hchk : (CheckVerInfo cache && CheckVolInfoAndGetVolEncKey cache env.volumes) with
    | false =>
      simp only [hchk, Bool.false_eq_true, if_neg, ite_false]
      exact rebuildDb_sys_no_data env _ true hs hd
    | true =>
      simp only [hchk, ite_true]
      rw [hv]
      have hds : (classifyVolumes env.volumes).data.isSome = false := by rw [hd]; rfl
      simp only [hds, Bool.false_and, Bool.and_false, Bool.false_eq_true, ite_false]
      exact ⟨rfl, rfl⟩

/-- C3 (witness): a container with a lone SYSTEM volume. -/
theorem C3_system_without_data_fails_witness :
    (FindMacOsPartitionInApfsContainer
      ⟨[⟨"System", roleSystem, "s1"⟩], none, true, true, true, fun _ => true⟩).found = false ∧
    (FindMacOsPartitionInApfsContainer
      ⟨[⟨"System", roleSystem, "s1"⟩], none, true, true, true, fun _ =>
        true⟩).combinedValidatorUsed = false :=
  C3_system_without_data_fails
    ⟨[⟨"System", roleSystem, "s1"⟩], none, true, true, true, fun _ => true⟩ rfl rfl

/-- C6: with an existing cache db, the cache is reused iff the schema
version check and the volume roles/identifiers check both pass; when either
fails, the old db file is deleted and (when the container can be read) the
volume records are rebuilt from scratch from the live container, never
patched in place. -/
theorem C6_cache_reuse_policy (env : OrchEnv) (cache : CacheRecord)
    (hdb : env.existingDb = some cache) :
    ((FindMacOsPartitionInApfsContainer env).usedExisting =
      (CheckVerInfo cache && CheckVolInfoAndGetVolEncKey cache env.volumes)) ∧
    ((CheckVerInfo cache && CheckVolInfoAndGetVolEncKey cache env.volumes) = false →
      (FindMacOsPartitionInApfsContainer env).deletedOldDb = true ∧
      (env.readVolumesOk = true →
        (FindMacOsPartitionInApfsContainer env).wroteVolInfo =
          some (WriteVolInfo env.volumes))) := by
  unfold FindMacOsPartitionInApfsContainer
  simp only [hdb]
  cases hchk : (CheckVerInfo cache && CheckVolInfoAndGetVolEncKey cache env.volumes) with
  | false =>
    simp only [Bool.false_eq_true, ite_false]
    exact ⟨(rebuildDb_trace env _ true).1, fun _ =>
      ⟨(rebuildDb_trace env _ true).2.1, (rebuildDb_trace env _ true).2.2⟩⟩
  | true =>
    simp only [ite_true]
    refine ⟨?_, fun hcontr => Bool.noConfusion hcontr⟩
    cases hcs : (classifyVolumes env.volumes).sys with
    | none =>
      simp only []
      rw [afterDbSetup_usedExisting]
    | some v =>
      simp only []
      cases hcond : ((classifyVolumes env.volumes).data.isSome &&
          (classifyVolumes env.volumes).preboot.isSome &&
          (classifyVolumes env.volumes).update.isSome) with
      | true =>
        simp only [ite_true]
        rw [afterDbSetup_usedExisting]
      | false =>
        simp only [Bool.false_eq_true, ite_false]

/-- C6 (witness): a stale cache (wrong schema version) for a container with
one unclassified volume is discarded and rebuilt from the live container. -/
theorem C6_cache_reuse_policy_witness :
    (FindMacOsPartitionInApfsContainer
      ⟨[⟨"Macintosh HD", 0, "m1"⟩], some ⟨0, []⟩, true, true, false,
        fun _ => false⟩).usedExisting = false ∧
    (FindMacOsPartitionInApfsContainer
      ⟨[⟨"Macintosh HD", 0, "m1"⟩], some ⟨0, []⟩, true, true, false,
        fun _ => false⟩).deletedOldDb = true ∧
    (FindMacOsPartitionInApfsContainer
      ⟨[⟨"Macintosh HD", 0, "m1"⟩], some ⟨0, []⟩, true, true, false,
        fun _ => false⟩).wroteVolInfo = some (WriteVolInfo [⟨"Macintosh HD", 0, "m1"⟩]) :=
  ⟨((C6_cache_reuse_policy
      ⟨[⟨"Macintosh HD", 0, "m1"⟩], some ⟨0, []⟩, true, true, false, fun _ => false⟩
      ⟨0, []⟩ rfl).1).trans (by decide),
   ((C6_cache_reuse_policy
      ⟨[⟨"Macintosh HD", 0, "m1"⟩], some ⟨0, []⟩, true, true, false, fun _ => false⟩
      ⟨0, []⟩ rfl).2 (by decide)).1,
   ((C6_cache_reuse_policy
      ⟨[⟨"Macintosh HD", 0, "m1"⟩], some ⟨0, []⟩, true, true, false, fun _ => false⟩
      ⟨0, []⟩ rfl).2 (by decide)).2 rfl⟩

/-- C7 (counterexample): a container whose volumes cannot be read for lack
of a credential (`ReadApfsVolumes` raises, first term) yields exactly the
same caller-visible outcome — `False` — as a readable container that simply
holds no macOS installation (second term): the decryption failure is not
surfaced distinctly. -/
theorem C7_decryption_failure_counterexample :
    (FindMacOsPartitionInApfsContainer
      ⟨[⟨"System", roleSystem, "s1"⟩, ⟨"Data", roleData, "d1"⟩], none, false, true, true,
        fun _ => false⟩).found = false ∧
    (FindMacOsPartitionInApfsContainer
      ⟨[⟨"Macintosh HD", 0, "m1"⟩], none, true, true, false,
        fun _ => false⟩).found = false := by
  constructor
  · rfl
  · rfl

/-- C7 (amended): when no cache exists and reading the container volumes
fails (e.g. a missing credential on an encrypted container), the failure is
logged ('Error while reading APFS volumes'), but the orchestrator returns
`False` — the same value the caller sees when no macOS is found — rather
than propagating a distinct decryption error. -/
theorem C7_decryption_failure_logged (env : OrchEnv)
    (hdb : env.existingDb = none) (hr : env.readVolumesOk = false) :
    (FindMacOsPartitionInApfsContainer env).found = false ∧
    (FindMacOsPartitionInApfsContainer env).loggedReadError = true := by
  unfold FindMacOsPartitionInApfsContainer
  simp only [hdb]
  unfold rebuildDb
  simp [hr, emptyResult]

/-- C7 (witness): the amended statement at a concrete unreadable
container. -/
theorem C7_decryption_failure_logged_witness :
    (FindMacOsPartitionInApfsContainer
      ⟨[⟨"System", roleSystem, "s1"⟩], none, false, true, true, fun _ => false⟩).found = false ∧
    (FindMacOsPartitionInApfsContainer
      ⟨[⟨"System", roleSystem, "s1"⟩], none, false, true, true,
        fun _ => false⟩).loggedReadError = true :=
  C7_decryption_failure_logged
    ⟨[⟨"System", roleSystem, "s1"⟩], none, false, true, true, fun _ => false⟩ rfl rfl

/-- C10: when a valid cache is reused for a container whose classified
volumes include SYSTEM and DATA but lack PREBOOT or UPDATE, the
unconditional handle dereference raises, the exception is caught by the
outer handler, and discovery for the container fails without the combined
validator ever running. -/
theorem C10_cache_reuse_missing_handle (env : OrchEnv) (cache : CacheRecord)
    (hdb : env.existingDb = some cache)
    (hchk : (CheckVerInfo cache && CheckVolInfoAndGetVolEncKey cache env.volumes) = true)
    (hs : ((classifyVolumes env.volumes).sys).isSome = true)
    (_hdata : ((classifyVolumes env.volumes).data).isSome = true)
    (hpu : (classifyVolumes env.volumes).preboot = none ∨
           (classifyVolumes env.volumes).update = none) :
    (FindMacOsPartitionInApfsContainer env).found = false ∧
    (FindMacOsPartitionInApfsContainer env).raisedOuter = true ∧
    (FindMacOsPartitionInApfsContainer env).combinedValidatorUsed = false := by
  obtain ⟨v, hv⟩ := Option.isSome_iff_exists.mp hs
  have hcond : ((classifyVolumes env.volumes).data.isSome &&
      (classifyVolumes env.volumes).preboot.isSome &&
      (classifyVolumes env.volumes).update.isSome) = false := by
    rcases hpu with h | h <;> simp [h]
  unfold FindMacOsPartitionInApfsContainer
  simp only [hdb, hchk, ite_true, hv, hcond, Bool.false_eq_true, ite_false]
  simp [emptyResult]

/-- C10 (witness): a container with intact SYSTEM and DATA volumes, a
matching cache, and no PREBOOT volume still fails discovery through the
cache-reuse path. -/
theorem C10_cache_reuse_missing_handle_witness :
    (FindMacOsPartitionInApfsContainer
      ⟨[⟨"System", roleSystem, "s1"⟩, ⟨"Data", roleData, "d1"⟩],
        some ⟨currentDbVersion, [("s1", roleSystem), ("d1", roleData)]⟩, true, true, true,
        fun _ => true⟩).found = false ∧
    (FindMacOsPartitionInApfsContainer
      ⟨[⟨"System", roleSystem, "s1"⟩, ⟨"Data", roleData, "d1"⟩],
        some ⟨currentDbVersion, [("s1", roleSystem), ("d1", roleData)]⟩, true, true, true,
        fun _ => true⟩).raisedOuter = true ∧
    (FindMacOsPartitionInApfsContainer
      ⟨[⟨"System", roleSystem, "s1"⟩, ⟨"Data", roleData, "d1"⟩],
        some ⟨currentDbVersion, [("s1", roleSystem), ("d1", roleData)]⟩, true, true, true,
        fun _ => true⟩).combinedValidatorUsed = false :=
  C10_cache_reuse_missing_handle
    ⟨[⟨"System", roleSystem, "s1"⟩, ⟨"Data", roleData, "d1"⟩],
      some ⟨currentDbVersion, [("s1", roleSystem), ("d1", roleData)]⟩, true, true, true,
      fun _ => true⟩
    ⟨currentDbVersion, [("s1", roleSystem), ("d1", roleData)]⟩
    rfl (by decide) (by decide) (by decide) (Or.inl (by decide))

/-- Every entry in the evaluated trace of the partition scan was either
already in the accumulator or is an allocated entry whose description is
neither "EFI System Partition" nor "APPLE_PARTITION_MAP" (case-insensitively). -/
theorem scanGo_evaluated_mem (img : Stream) (blockSize : Nat) (isMacOs orch : Int → Bool)
    (entries : List PartEntry) :
    ∀ (g : Int) (acc : List PartEntry) (q : PartEntry),
      q ∈ (scanGo img blockSize isMacOs orch entries g acc).evaluated →
      q ∈ acc ∨ (q.flags &&& TSK_VS_PART_FLAG_ALLOC ≠ 0 ∧
        pyUpper q.desc ≠ "EFI SYSTEM PARTITION" ∧
        pyUpper q.desc ≠ "APPLE_PARTITION_MAP") := by
  induction entries with
  | nil => exact fun g acc q h => Or.inl h
  | cons p rest ih =>
    intro g acc q h
    simp only [scanGo] at h
    by_cases h1 : p.flags &&& TSK_VS_PART_FLAG_META ≠ 0 ∧ p.desc = "GPT Header"
    · simp only [if_pos h1] at h
      exact ih _ _ _ h
    · simp only [if_neg h1] at h
      by_cases h2 : p.flags &&& TSK_VS_PART_FLAG_ALLOC ≠ 0
      · simp only [if_pos h2] at h
        by_cases h3 : pyUpper p.desc = "EFI SYSTEM PARTITION"
        · simp only [if_pos h3] at h
          exact ih _ _ _ h
        · simp only [if_neg h3] at h
          by_cases h4 : pyUpper p.desc = "APPLE_PARTITION_MAP"
          · simp only [if_pos h4] at h
            exact ih _ _ _ h
          · simp only [if_neg h4] at h
            cases hA : IsApfsContainer img ((blockSize * p.start : Nat) : Int) with
            | error m =>
              simp only [hA] at h
              rcases List.mem_append.mp h with hq | hq
              · exact Or.inl hq
              · rw [List.mem_singleton.mp hq]
                exact Or.inr ⟨h2, h3, h4⟩
            | ok b =>
              cases b with
              | false =>
                simp only [hA] at h
                cases hM : isMacOs ((blockSize * p.start : Nat) : Int) with
                | true =>
                  simp only [hM, ite_true] at h
                  rcases List.mem_append.mp h with hq | hq
                  · exact Or.inl hq
                  · rw [List.mem_singleton.mp hq]
                    exact Or.inr ⟨h2, h3, h4⟩
                | false =>
                  simp only [hM, Bool.false_eq_true, ite_false] at h
                  rcases ih _ _ _ h with hq | hq
                  · rcases List.mem_append.mp hq with hq2 | hq2
                    · exact Or.inl hq2
                    · rw [List.mem_singleton.mp hq2]
                      exact Or.inr ⟨h2, h3, h4⟩
                  · exact Or.inr hq
              | true =>
                simp only [hA] at h
                cases hB : IsApfsBootContainer img (g + 128 * (p.slot_num : Int)) with
                | error m =>
                  simp only [hB] at h
                  rcases List.mem_append.mp h with hq | hq
                  · exact Or.inl hq
                  · rw [List.mem_singleton.mp hq]
                    exact Or.inr ⟨h2, h3, h4⟩
                | ok bb =>
                  cases bb with
                  | true =>
                    simp only [hB] at h
                    rcases List.mem_append.mp h with hq | hq
                    · exact Or.inl hq
                    · rw [List.mem_singleton.mp hq]
                      exact Or.inr ⟨h2, h3, h4⟩
                  | false =>
                    simp only [hB] at h
                    rcases ih _ _ _ h with hq | hq
                    · rcases List.mem_append.mp hq with hq2 | hq2
                      · exact Or.inl hq2
                      · rw [List.mem_singleton.mp hq2]
                        exact Or.inr ⟨h2, h3, h4⟩
                    · exact Or.inr hq
      · simp only [if_neg h2] at h
        exact ih _ _ _ h

/-- C5: every partition-table entry that the scan hands to the APFS/HFS
detectors is allocated and is labeled neither "EFI System Partition" nor
"APPLE_PARTITION_MAP" in any letter case — so unallocated or so-labeled
entries are never evaluated as macOS candidates. -/
theorem C5_skipped_entries_never_evaluated (img : Stream) (entries : List PartEntry)
    (blockSize : Nat) (isMacOs orch : Int → Bool) (q : PartEntry)
    (hq : q ∈ (FindMacOsPartition img entries blockSize isMacOs orch).evaluated) :
    q.flags &&& TSK_VS_PART_FLAG_ALLOC ≠ 0 ∧
    pyUpper q.desc ≠ "EFI SYSTEM PARTITION" ∧
    pyUpper q.desc ≠ "APPLE_PARTITION_MAP" := by
  rcases scanGo_evaluated_mem img blockSize isMacOs orch entries (-1) [] q hq with h | h
  · exact absurd h (List.not_mem_nil q)
  · exact h

/-- C5 (witness): the statement applied to a concrete one-entry table whose
entry is evaluated. -/
theorem C5_skipped_entries_never_evaluated_witness :
    (⟨1, "Macintosh HD", 1, 1, 0⟩ : PartEntry).flags &&& TSK_VS_PART_FLAG_ALLOC ≠ 0 ∧
    pyUpper (⟨1, "Macintosh HD", 1, 1, 0⟩ : PartEntry).desc ≠ "EFI SYSTEM PARTITION" ∧
    pyUpper (⟨1, "Macintosh HD", 1, 1, 0⟩ : PartEntry).desc ≠ "APPLE_PARTITION_MAP" :=
  C5_skipped_entries_never_evaluated ⟨fun _ len => some (List.replicate len 0)⟩
    [⟨1, "Macintosh HD", 1, 1, 0⟩] 512 (fun _ => false) (fun _ => false)
    ⟨1, "Macintosh HD", 1, 1, 0⟩ (by decide)

/-- A concrete full-disk image for the partition-scan counterexample: an
APFS container signature at partition offset 5120 (read at 5152), the
bootable-container GPT type identifier at entry offset 1152, zeros
elsewhere. -/
def c4Img : Stream :=
  ⟨fun off len =>
    if off = 5152 ∧ len = 4 then some nxsbMagic
    else if off = 1152 ∧ len = 16 then some apfsBootUuidBytes
    else some (List.replicate len 0)⟩

/-- C4 (counterexample): a table whose first candidate is a bootable APFS
container that fails validation (`orch` returns false) followed by an entry
that would be confirmed as macOS (`isMacOs` is true at its offset): the scan
stops at the failed container with result `false` and never evaluates the
second entry — refuting that a failed candidate does not abort the scan. -/
theorem C4_failed_apfs_candidate_aborts_counterexample :
    FindMacOsPartition c4Img
        [⟨4, "GPT Header", 1, 1, 0⟩, ⟨1, "Container", 10, 100, 1⟩,
         ⟨1, "Macintosh HD", 200, 100, 2⟩] 512
        (fun off => decide (off = 102400)) (fun _ => false) =
      ⟨.ok false, [⟨1, "Container", 10, 100, 1⟩]⟩ ∧
    (fun off => decide (off = (102400 : Int))) ((512 * 200 : Nat) : Int) = true := by
  constructor
  · rfl
  · rfl

/-- C4 (amended): for an evaluated allocated entry (neither skip label, not
the GPT header), the scan (i) stops with success at the first entry
confirmed as a macOS partition, (ii) continues with the remaining entries
past an unconfirmed non-APFS candidate, (iii) terminates with the
orchestrator's outcome — whatever it is — at an APFS container passing the
bootable-marker check, and (iv) continues with the remaining entries past an
APFS container failing the bootable-marker check. -/
theorem C4_scan_stop_behavior (img : Stream) (blockSize : Nat) (isMacOs orch : Int → Bool)
    (p : PartEntry) (rest : List PartEntry) (g : Int) (acc : List PartEntry)
    (hmeta : ¬(p.flags &&& TSK_VS_PART_FLAG_META ≠ 0 ∧ p.desc = "GPT Header"))
    (halloc : p.flags &&& TSK_VS_PART_FLAG_ALLOC ≠ 0)
    (hefi : pyUpper p.desc ≠ "EFI SYSTEM PARTITION")
    (hapm : pyUpper p.desc ≠ "APPLE_PARTITION_MAP") :
    (IsApfsContainer img ((blockSize * p.start : Nat) : Int) = .ok false →
      isMacOs ((blockSize * p.start : Nat) : Int) = true →
      scanGo img blockSize isMacOs orch (p :: rest) g acc =
        ⟨.ok true, acc ++ [p]⟩) ∧
    (IsApfsContainer img ((blockSize * p.start : Nat) : Int) = .ok false →
      isMacOs ((blockSize * p.start : Nat) : Int) = false →
      scanGo img blockSize isMacOs orch (p :: rest) g acc =
        scanGo img blockSize isMacOs orch rest g (acc ++ [p])) ∧
    (IsApfsContainer img ((blockSize * p.start : Nat) : Int) = .ok true →
      IsApfsBootContainer img (g + 128 * (p.slot_num : Int)) = .ok true →
      scanGo img blockSize isMacOs orch (p :: rest) g acc =
        ⟨.ok (orch ((blockSize * p.start : Nat) : Int)), acc ++ [p]⟩) ∧
    (IsApfsContainer img ((blockSize * p.start : Nat) : Int) = .ok true →
      IsApfsBootContainer img (g + 128 * (p.slot_num : Int)) = .ok false →
      scanGo img blockSize isMacOs orch (p :: rest) g acc =
        scanGo img blockSize isMacOs orch rest g (acc ++ [p])) := by
  refine ⟨fun hA hM => ?_, fun hA hM => ?_, fun hA hB => ?_, fun hA hB => ?_⟩
  · rw [scanGo]
    simp only [if_neg hmeta, if_pos halloc, if_neg hefi, if_neg hapm, hA, hM, ite_true]
  · rw [scanGo]
    simp only [if_neg hmeta, if_pos halloc, if_neg hefi, if_neg hapm, hA, hM,
      Bool.false_eq_true, ite_false]
  · rw [scanGo]
    simp only [if_neg hmeta, if_pos halloc, if_neg hefi, if_neg hapm, hA, hB]
  · rw [scanGo]
    simp only [if_neg hmeta, if_pos halloc, if_neg hefi, if_neg hapm, hA, hB]

/-- C4 (witness): the amended statement applied to concrete one-entry
tables — an entry confirmed as macOS stops the scan with success, and an
APFS container failing the bootable-marker check lets the scan continue. -/
theorem C4_scan_stop_behavior_witness :
    (scanGo ⟨fun _ len => some (List.replicate len 0)⟩ 512 (fun _ => true) (fun _ => false)
        [⟨1, "Macintosh HD", 1, 1, 0⟩] (-1) [] =
      ⟨.ok true, [] ++ [⟨1, "Macintosh HD", 1, 1, 0⟩]⟩) ∧
    (scanGo ⟨fun off len => if off = 544 ∧ len = 4 then some nxsbMagic
          else some (List.replicate len 0)⟩ 512 (fun _ => false) (fun _ => false)
        [⟨1, "Container", 1, 1, 0⟩] (-1) [] =
      scanGo ⟨fun off len => if off = 544 ∧ len = 4 then some nxsbMagic
          else some (List.replicate len 0)⟩ 512 (fun _ => false) (fun _ => false)
        [] (-1) ([] ++ [⟨1, "Container", 1, 1, 0⟩])) :=
  ⟨(C4_scan_stop_behavior ⟨fun _ len => some (List.replicate len 0)⟩ 512
      (fun _ => true) (fun _ => false) ⟨1, "Macintosh HD", 1, 1, 0⟩ [] (-1) []
      (by decide) (by decide) (by decide) (by decide)).1 rfl rfl,
   (C4_scan_stop_behavior ⟨fun off len => if off = 544 ∧ len = 4 then some nxsbMagic
        else some (List.replicate len 0)⟩ 512
      (fun _ => false) (fun _ => false) ⟨1, "Container", 1, 1, 0⟩ [] (-1) []
      (by decide) (by decide) (by decide) (by decide)).2.2.2 rfl rfl⟩

end MacApt
